import Mathlib

/-!
Verification of the docuvoice service layer: base64/PCM audio decoding,
translation-response normalization, geocoding text extraction, and
speech-synthesis error handling, shallowly embedded from the TypeScript
source.  JavaScript optional/nullable string values are modelled by `JStr`
(undefined, null, or a string), machine integers by `Nat`/`Int`, and
floating-point samples and coordinates by `ℚ` (every value arising here,
an int16 divided by the power of two 32768 or a short decimal literal, is
handled exactly by both float64 and `ℚ`).
-/

deriving instance DecidableEq for Except

namespace DocuVoice

/-- A JavaScript value that is either `undefined`, `null`, or a string;
used for the optional string fields of the parsed JSON payload and of the
returned official-document record. -/
inductive JStr where
  | undef : JStr
  | null : JStr
  | str : String → JStr
deriving DecidableEq, Repr

/-- JavaScript `v || d` for a string-valued `v`: `undefined`, `null` and
the empty string are falsy and give the default. -/
def JStr.jsOr : JStr → String → String
  | .str s, d => if s = "" then d else s
  | _, d => d

/-- JavaScript `v || null` for a string-valued `v`, as in
`result.address || null`: a truthy (nonempty) string passes through,
everything else becomes null (`none`). -/
def JStr.orNull : JStr → Option String
  | .str s => if s = "" then none else some s
  | _ => none

/-- Optional chaining `od?.f`: `undefined` when the object is `null` or
absent, the field value otherwise. -/
def optChain {α : Type} (od : Option α) (f : α → JStr) : JStr :=
  match od with
  | none => .undef
  | some d => f d

/-- Outcome of one remote request: the call either throws or yields a
response value. -/
inductive RemoteOutcome (α : Type) where
  | failure : RemoteOutcome α
  | success : α → RemoteOutcome α
deriving DecidableEq

/-! ### Audio decoding (`decode`, `decodeAudioData`) -/

/-- ASCII whitespace removed by forgiving-base64 (`atob`): tab, LF, FF,
CR, space. -/
def asciiWhitespace (c : Char) : Bool :=
  ([0x9, 0xa, 0xc, 0xd, 0x20] : List Nat).contains c.toNat

/-- Index of a character in the standard base64 alphabet. -/
def b64Index (c : Char) : Option Nat :=
  if 'A' ≤ c ∧ c ≤ 'Z' then some (c.toNat - 'A'.toNat)
  else if 'a' ≤ c ∧ c ≤ 'z' then some (c.toNat - 'a'.toNat + 26)
  else if '0' ≤ c ∧ c ≤ '9' then some (c.toNat - '0'.toNat + 52)
  else if c = '+' then some 62
  else if c = '/' then some 63
  else none

/-- Strip up to two trailing `=` padding characters when the length is a
multiple of four, as forgiving-base64 does. -/
def stripPadding (cs : List Char) : List Char :=
  if cs.length % 4 = 0 then
    match cs.reverse with
    | '=' :: '=' :: rest => rest.reverse
    | '=' :: rest => rest.reverse
    | _ => cs
  else cs

/-- Turn a list of 6-bit alphabet indices into bytes; a single leftover
index (input length ≡ 1 mod 4) is a base64 error. -/
def decodeGroups : List Nat → Option (List Nat)
  | [] => some []
  | [_] => none
  | [a, b] => some [a * 4 + b / 16]
  | [a, b, c] => some [a * 4 + b / 16, b % 16 * 16 + c / 4]
  | a :: b :: c :: d :: rest =>
      match decodeGroups rest with
      | some tail =>
          some ((a * 4 + b / 16) :: (b % 16 * 16 + c / 4) :: (c % 4 * 64 + d) :: tail)
      | none => none

/-- `atob(base64)` followed by `charCodeAt` collection into a `Uint8Array`,
i.e. the source's `decode`: forgiving-base64 to a byte list, `none` when
`atob` throws `InvalidCharacterError`. -/
def decode (base64 : String) : Option (List Nat) :=
  let cs := stripPadding (base64.data.filter fun c => !asciiWhitespace c)
  if cs.contains '=' then none
  else
    match cs.mapM b64Index with
    | some idxs => decodeGroups idxs
    | none => none

/-- Reinterpret a little-endian byte pair as a signed 16-bit integer. -/
def toInt16 (lo hi : Nat) : Int :=
  let u := lo % 256 + 256 * (hi % 256)
  if u < 32768 then (u : Int) else (u : Int) - 65536

/-- Group a byte list into consecutive pairs; `none` on odd length,
mirroring the `RangeError` thrown by `new Int16Array(buffer)` on a buffer
whose byte length is not a multiple of 2. -/
def bytePairs : List Nat → Option (List (Nat × Nat))
  | [] => some []
  | [_] => none
  | a :: b :: rest =>
      match bytePairs rest with
      | some tail => some ((a, b) :: tail)
      | none => none

/-- Specification-side sample sequence: every consecutive little-endian
byte pair as a signed 16-bit integer divided by 32768. -/
def pcm16Samples : List Nat → List ℚ
  | lo :: hi :: rest => (toInt16 lo hi : ℚ) / 32768 :: pcm16Samples rest
  | _ => []

/-- The `AudioBuffer` assembled by `decodeAudioData`: mono channel data of
normalized samples. -/
structure AudioBuffer where
  numChannels : Nat
  frameCount : Nat
  sampleRate : Nat
  channelData : List ℚ
deriving DecidableEq, Repr

/-- The source's `decodeAudioData`: base64-decode, view the bytes as an
`Int16Array` (failing on odd byte length), and fill a mono buffer with
each 16-bit sample divided by 32768.0. -/
def decodeAudioData (base64Data : String) (sampleRate : Nat := 24000) :
    Except String AudioBuffer :=
  match decode base64Data with
  | none => .error "InvalidCharacterError"
  | some bytes =>
      match bytePairs bytes with
      | none => .error "RangeError: byte length of Int16Array should be a multiple of 2"
      | some pairs =>
          let dataInt16 : List Int := pairs.map fun p => toInt16 p.1 p.2
          .ok { numChannels := 1
                frameCount := dataInt16.length
                sampleRate := sampleRate
                channelData := dataInt16.map fun v => mkRat v 32768 }

/-! ### Translation (`translateDocument`) -/

/-- The nested `officialDetails` object of the parsed JSON payload; each
field may be absent, null, or a string. -/
structure OfficialDetails where
  goNumber : JStr
  department : JStr
  date : JStr
  subject : JStr
deriving DecidableEq, Repr

/-- The `OfficialDocInfo` record returned to the caller; the four
optional sub-fields are copied from the payload without defaulting, so
they can be `undef`. -/
structure OfficialDocInfo where
  isOfficial : Bool
  goNumber : JStr
  department : JStr
  date : JStr
  subject : JStr
deriving DecidableEq, Repr

/-- The JSON payload `JSON.parse(response.text)` yields, with each
schema-optional field allowed to be absent. -/
structure TranslationPayload where
  translation : JStr
  summary : JStr
  actionItems : Option (List String)
  address : JStr
  isOfficialDocument : Option Bool
  officialDetails : Option OfficialDetails
deriving DecidableEq, Repr

/-- The record `translateDocument` resolves with. -/
structure TranslationResult where
  text : String
  summary : String
  actionItems : List String
  address : Option String
  officialInfo : Option OfficialDocInfo
deriving DecidableEq, Repr

/-- Field-by-field normalization of a parsed payload, lines 115-132 of the
source: official info only when the boolean flag is exactly `true`,
`||`-defaults on the top-level fields, optional chaining into
`officialDetails`. -/
def normalizePayload (result : TranslationPayload) : TranslationResult :=
  let officialInfo : Option OfficialDocInfo :=
    if result.isOfficialDocument = some true then
      some { isOfficial := true
             goNumber := optChain result.officialDetails OfficialDetails.goNumber
             department := optChain result.officialDetails OfficialDetails.department
             date := optChain result.officialDetails OfficialDetails.date
             subject := optChain result.officialDetails OfficialDetails.subject }
    else none
  { text := result.translation.jsOr "Could not extract text."
    summary := result.summary.jsOr "No summary available."
    actionItems := result.actionItems.getD []
    address := result.address.orNull
    officialInfo := officialInfo }

/-- JavaScript truthiness of `response.text`: present and nonempty. -/
def truthyStr : Option String → Bool
  | some s => s != ""
  | none => false

/-- The canonical "nothing extracted" result returned when the response
text is empty or absent (line 135 of the source). -/
def emptyTranslationResult : TranslationResult :=
  { text := "Could not extract text."
    summary := ""
    actionItems := []
    address := none
    officialInfo := none }

/-- The source's `translateDocument`, parameterized by the remote-call
outcome and by the `JSON.parse` result on the response text: a thrown
remote call or parse error becomes the generic domain error, empty or
absent text the canonical empty result, and a parsed payload is
normalized. -/
def translateDocument (outcome : RemoteOutcome (Option String))
    (parseJson : String → Except Unit TranslationPayload) :
    Except String TranslationResult :=
  match outcome with
  | .failure => .error "Failed to translate document."
  | .success text =>
      if truthyStr text then
        match parseJson (text.getD "") with
        | .ok result => .ok (normalizePayload result)
        | .error _ => .error "Failed to translate document."
      else
        .ok emptyTranslationResult

/-! ### Geocoding (`resolveLocation`) -/

/-- Characters matched by the JavaScript regex class `\s`. -/
def jsSpace (c : Char) : Bool :=
  ([0x9, 0xa, 0xb, 0xc, 0xd, 0x20, 0xa0, 0x1680,
    0x2000, 0x2001, 0x2002, 0x2003, 0x2004, 0x2005, 0x2006, 0x2007,
    0x2008, 0x2009, 0x200a, 0x2028, 0x2029, 0x202f, 0x205f, 0x3000,
    0xfeff] : List Nat).contains c.toNat

/-- Case-insensitive character comparison, as under the regex `i` flag. -/
def lowerEq (a b : Char) : Bool :=
  a.toLower == b.toLower

/-- Consume the literal marker case-insensitively at the head of the
text, returning the remainder on success. -/
def stripMarker : List Char → List Char → Option (List Char)
  | [], cs => some cs
  | _ :: _, [] => none
  | m :: ms, c :: cs => if lowerEq m c then stripMarker ms cs else none

/-- Match the capture group `-?\d+(\.\d+)?` at the head of the text,
returning the captured characters: an optional minus sign, one or more
digits, and an optional fractional part that requires at least one digit
after the dot. -/
def numToken (cs : List Char) : Option (List Char) :=
  let sign : List Char := match cs with
    | '-' :: _ => ['-']
    | _ => []
  let cs1 : List Char := match cs with
    | '-' :: rest => rest
    | _ => cs
  let intDigits := cs1.takeWhile Char.isDigit
  let afterInt := cs1.dropWhile Char.isDigit
  if intDigits.isEmpty then none
  else
    let frac : List Char := match afterInt with
      | '.' :: rest =>
          let ds := rest.takeWhile Char.isDigit
          if ds.isEmpty then [] else '.' :: ds
      | _ => []
    some (sign ++ intDigits ++ frac)

/-- Try the full pattern `MARKER\s*(-?\d+(\.\d+)?)` anchored at the head
of the text. -/
def tryCoordAt (marker cs : List Char) : Option (List Char) :=
  match stripMarker marker cs with
  | none => none
  | some rest => numToken (rest.dropWhile jsSpace)

/-- Leftmost match of the coordinate pattern: try every start position
from left to right. -/
def findCoord (marker : List Char) : List Char → Option (List Char)
  | [] => tryCoordAt marker []
  | c :: cs =>
      match tryCoordAt marker (c :: cs) with
      | some tok => some tok
      | none => findCoord marker cs

/-- `text.match(/MARKER\s*(-?\d+(\.\d+)?)/i)` restricted to capture
group 1, which is all `resolveLocation` uses. -/
def coordMatch (marker text : String) : Option String :=
  (findCoord marker.data text.data).map fun tok => String.mk tok

/-- Numeric value of a digit string. -/
def digitsVal (ds : List Char) : Nat :=
  ds.foldl (fun n c => 10 * n + (c.toNat - '0'.toNat)) 0

/-- Decimal value of an unsigned captured token `\d+(\.\d+)?`: the
integer part plus the fractional digits over the matching power of ten,
assembled as one exact rational. -/
def parseUnsigned (cs : List Char) : ℚ :=
  let intDigits := cs.takeWhile Char.isDigit
  let afterInt := cs.dropWhile Char.isDigit
  match afterInt with
  | '.' :: frac =>
      mkRat (digitsVal intDigits * 10 ^ frac.length + digitsVal frac) (10 ^ frac.length)
  | _ => mkRat (digitsVal intDigits) 1

/-- `parseFloat` on a captured coordinate token `-?\d+(\.\d+)?`; such
short decimal strings are parsed exactly. -/
def parseFloatQ (s : String) : ℚ :=
  match s.data with
  | '-' :: rest => -(parseUnsigned rest)
  | cs => parseUnsigned cs

/-- The `web` member of a grounding chunk, itself carrying an optional
`uri`. -/
structure WebInfo where
  uri : Option String
deriving DecidableEq, Repr

/-- One grounding reference object from the geocoding response. -/
structure GroundingChunk where
  web : Option WebInfo
deriving DecidableEq, Repr

/-- The fields of the geocoding response `resolveLocation` reads: the
free text and `candidates[0].groundingMetadata.groundingChunks`. -/
structure GeoResponse where
  text : Option String
  groundingChunks : Option (List GroundingChunk)
deriving DecidableEq, Repr

/-- The record `resolveLocation` resolves with. -/
structure GeoResult where
  latitude : Option ℚ
  longitude : Option ℚ
  mapUri : Option String
deriving DecidableEq, Repr

/-- `chunk.web?.uri`. -/
def chunkUri (c : GroundingChunk) : Option String :=
  c.web.bind WebInfo.uri

/-- JavaScript truthiness of `chunk.web?.uri`: present and nonempty. -/
def truthyUri (c : GroundingChunk) : Bool :=
  match chunkUri c with
  | some u => u != ""
  | none => false

/-- The source's scan over grounding chunks: take the uri of the first
chunk whose `web?.uri` is truthy. -/
def firstMapUri : List GroundingChunk → Option String
  | [] => none
  | c :: rest => if truthyUri c then chunkUri c else firstMapUri rest

/-- The source's `resolveLocation`, parameterized by the remote-call
outcome: a thrown call is swallowed into the empty result; otherwise the
LAT/LNG regex pair is applied to the response text (both must match for
either coordinate to be set) and the first truthy grounding-chunk web uri
becomes the map uri. -/
def resolveLocation (outcome : RemoteOutcome GeoResponse) : GeoResult :=
  match outcome with
  | .failure => { latitude := none, longitude := none, mapUri := none }
  | .success response =>
      let text := response.text.getD ""
      let latM := coordMatch "LAT:" text
      let lngM := coordMatch "LNG:" text
      let coords : Option ℚ × Option ℚ :=
        if latM.isSome ∧ lngM.isSome then
          (latM.map parseFloatQ, lngM.map parseFloatQ)
        else (none, none)
      let mapUri : Option String :=
        match response.groundingChunks with
        | some chunks => firstMapUri chunks
        | none => none
      { latitude := coords.1, longitude := coords.2, mapUri := mapUri }

/-! ### Speech synthesis (`generateSpeech`) -/

/-- The `inlineData` member of a speech-response part. -/
structure InlineData where
  data : Option String
deriving DecidableEq, Repr

/-- One part of a speech-response candidate's content. -/
structure SpeechPart where
  inlineData : Option InlineData
deriving DecidableEq, Repr

/-- The `content` member of a speech-response candidate. -/
structure SpeechContent where
  parts : List SpeechPart
deriving DecidableEq, Repr

/-- One candidate of the speech-synthesis response. -/
structure SpeechCandidate where
  content : Option SpeechContent
deriving DecidableEq, Repr

/-- The speech-synthesis response as read by `generateSpeech`. -/
structure SpeechResponse where
  candidates : List SpeechCandidate
deriving DecidableEq, Repr

/-- `response.candidates?.[0]?.content?.parts?.[0]?.inlineData?.data`. -/
def extractAudioData (r : SpeechResponse) : Option String :=
  ((((r.candidates.head?.bind SpeechCandidate.content).map
      SpeechContent.parts).bind List.head?).bind
      SpeechPart.inlineData).bind InlineData.data

/-- Whether the extracted audio data is truthy (present and nonempty). -/
def hasAudioData (r : SpeechResponse) : Bool :=
  match extractAudioData r with
  | some d => d != ""
  | none => false

/-- The source's `generateSpeech`, parameterized by the remote-call
outcome: a thrown call, or falsy extracted audio data (which throws
"No audio data received." inside the try block), becomes the generic
domain error; otherwise the base64 payload is returned. -/
def generateSpeech (outcome : RemoteOutcome SpeechResponse) :
    Except String String :=
  match outcome with
  | .failure => .error "Failed to generate speech."
  | .success r =>
      match extractAudioData r with
      | some d => if d = "" then .error "Failed to generate speech." else .ok d
      | none => .error "Failed to generate speech."

/-! ### Concrete inputs used in witnesses and counterexamples -/

/-- A payload carrying every official detail while the classification
flag is `false`. -/
def c1Payload : TranslationPayload :=
  { translation := .str "Texto completo"
    summary := .str "Resumen"
    actionItems := some ["Firmar"]
    address := .undef
    isOfficialDocument := some false
    officialDetails := some { goNumber := .str "GO 123"
                              department := .str "Revenue"
                              date := .str "2024-01-01"
                              subject := .str "Subsidy" } }

/-- A payload classified as official whose `officialDetails` object is
absent. -/
def c3Payload : TranslationPayload :=
  { translation := .str "Full text"
    summary := .str "Simple summary"
    actionItems := some ["Submit by Friday"]
    address := .str "Main Road Office"
    isOfficialDocument := some true
    officialDetails := none }

/-- A speech response whose first candidate carries inline audio data. -/
def speechAudioResponse : SpeechResponse :=
  { candidates := [{ content := some { parts := [{ inlineData := some { data := some "UklGRg" } }] } }] }

/-! ### Helper lemmas -/

theorem jsOr_ne_empty (v : JStr) (d : String) (hd : d ≠ "") : v.jsOr d ≠ "" := by
  cases v with
  | str s =>
      by_cases hs : s = "" <;> simp [JStr.jsOr, hs, hd]
  | undef => simpa [JStr.jsOr] using hd
  | null => simpa [JStr.jsOr] using hd

theorem orNull_ne_some_empty (v : JStr) : v.orNull ≠ some "" := by
  cases v with
  | str s => by_cases hs : s = "" <;> simp [JStr.orNull, hs]
  | undef => simp [JStr.orNull]
  | null => simp [JStr.orNull]

theorem mkRat_int16_div (v : Int) : mkRat v 32768 = (v : ℚ) / 32768 := by
  rw [Rat.mkRat_eq_div]
  norm_num

theorem bytePairs_even : ∀ bytes : List Nat, bytes.length % 2 = 0 →
    ∃ pairs, bytePairs bytes = some pairs ∧
      pairs.length = bytes.length / 2 ∧
      pairs.map (fun p => ((toInt16 p.1 p.2 : ℚ) / 32768)) = pcm16Samples bytes
  | [], _ => ⟨[], rfl, rfl, rfl⟩
  | [a], h => by simp at h
  | a :: b :: rest, h => by
      obtain ⟨pairs, h1, h2, h3⟩ := bytePairs_even rest (by simp at h; omega)
      refine ⟨(a, b) :: pairs, ?_, ?_, ?_⟩
      · simp [bytePairs, h1]
      · simp only [List.length_cons, h2]
        omega
      · simp [pcm16Samples, h3]

theorem bytePairs_odd : ∀ bytes : List Nat, bytes.length % 2 = 1 →
    bytePairs bytes = none
  | [], h => by simp at h
  | [_], _ => rfl
  | a :: b :: rest, h => by
      have := bytePairs_odd rest (by simp at h; omega)
      simp [bytePairs, this]

theorem firstMapUri_eq_find : ∀ chunks : List GroundingChunk,
    firstMapUri chunks = (chunks.find? truthyUri).bind chunkUri
  | [] => rfl
  | c :: rest => by
      by_cases h : truthyUri c = true
      · simp [firstMapUri, h, List.find?_cons]
      · simp only [Bool.not_eq_true] at h
        simp [firstMapUri, h, List.find?_cons, firstMapUri_eq_find rest]

/-! ### Claim theorems -/

/-- C4: for every base64 input that decodes to an even number of bytes,
`decodeAudioData` interprets each consecutive byte pair as a signed
16-bit little-endian integer and produces a sample equal to that integer
divided by 32768; in particular the byte sequence encoding the int16
values [0, 16384, -16384, 32767] (base64 "AAAAQADA/38=") decodes to
samples [0, 1/2, -1/2, 32767/32768] with frame count 4. -/
theorem decodeAudioData_pcm16 :
    (∀ (s : String) (bytes : List Nat) (rate : Nat),
        decode s = some bytes → bytes.length % 2 = 0 →
        decodeAudioData s rate =
          .ok { numChannels := 1
                frameCount := bytes.length / 2
                sampleRate := rate
                channelData := pcm16Samples bytes }) ∧
    decodeAudioData "AAAAQADA/38=" 24000 =
      .ok { numChannels := 1
            frameCount := 4
            sampleRate := 24000
            channelData := [0, 1 / 2, -1 / 2, 32767 / 32768] } := by
  constructor
  · intro s bytes rate hdec heven
    obtain ⟨pairs, h1, h2, h3⟩ := bytePairs_even bytes heven
    simp only [decodeAudioData, hdec, h1, List.map_map, Function.comp_def,
      mkRat_int16_div, List.length_map]
    rw [h2, h3]
  · have h : decodeAudioData "AAAAQADA/38=" 24000 =
        .ok { numChannels := 1
              frameCount := 4
              sampleRate := 24000
              channelData := [0, mkRat 1 2, mkRat (-1) 2, mkRat 32767 32768] } := by
      decide
    rw [h]
    norm_num [Rat.mkRat_eq_div, AudioBuffer.mk.injEq]

/-- C4 witness: the general statement applied to the base64 encoding
"/38=" of the single int16 value 32767. -/
theorem decodeAudioData_pcm16_witness :
    decodeAudioData "/38=" 24000 =
      .ok { numChannels := 1
            frameCount := [255, 127].length / 2
            sampleRate := 24000
            channelData := pcm16Samples [255, 127] } :=
  decodeAudioData_pcm16.1 "/38=" [255, 127] 24000 (by decide) (by decide)

/-- C10: for every base64 input that decodes to an odd number of bytes,
`decodeAudioData` fails with the `RangeError` raised by viewing an
odd-length buffer as an `Int16Array`, rather than truncating the
trailing byte. -/
theorem decodeAudioData_odd_length
    (s : String) (bytes : List Nat) (rate : Nat)
    (hdec : decode s = some bytes) (hodd : bytes.length % 2 = 1) :
    decodeAudioData s rate =
      .error "RangeError: byte length of Int16Array should be a multiple of 2" := by
  simp [decodeAudioData, hdec, bytePairs_odd bytes hodd]

/-- C10 witness: the base64 input "AA==" decodes to the single byte 0
and makes `decodeAudioData` fail. -/
theorem decodeAudioData_odd_length_witness :
    decodeAudioData "AA==" 24000 =
      .error "RangeError: byte length of Int16Array should be a multiple of 2" :=
  decodeAudioData_odd_length "AA==" [0] 24000 (by decide) (by decide)

/-- C1: for every parsed payload whose `isOfficialDocument` flag is
`false` or absent, `translateDocument` returns a result whose
`officialInfo` field is null, regardless of the values in the payload's
`officialDetails` record. -/
theorem translateDocument_officialInfo_null
    (payload : TranslationPayload)
    (hflag : payload.isOfficialDocument = some false ∨
             payload.isOfficialDocument = none)
    (s : String) (hs : s ≠ "")
    (parseJson : String → Except Unit TranslationPayload)
    (hp : parseJson s = Except.ok payload) :
    translateDocument (.success (some s)) parseJson =
      .ok (normalizePayload payload) ∧
    (normalizePayload payload).officialInfo = none := by
  have hflag2 : ¬payload.isOfficialDocument = some true := by
    rcases hflag with h | h <;> simp [h]
  constructor
  · simp [translateDocument, truthyStr, hs, hp]
  · simp [normalizePayload, hflag2]

/-- C1 witness: the theorem applied to a payload carrying full official
details under a `false` flag. -/
theorem translateDocument_officialInfo_null_witness :
    translateDocument (.success (some "ok")) (fun _ => Except.ok c1Payload) =
      .ok (normalizePayload c1Payload) ∧
    (normalizePayload c1Payload).officialInfo = none :=
  translateDocument_officialInfo_null c1Payload (Or.inl rfl) "ok" (by decide) _ rfl

/-- C2: for every remote translation response whose text is empty or
absent, `translateDocument` returns the canonical empty result
(placeholder text, empty summary, empty action-item list, null address,
null official info) without raising an error. -/
theorem translateDocument_empty_response
    (text : Option String) (h : text = none ∨ text = some "")
    (parseJson : String → Except Unit TranslationPayload) :
    translateDocument (.success text) parseJson =
      .ok { text := "Could not extract text."
            summary := ""
            actionItems := []
            address := none
            officialInfo := none } := by
  rcases h with h | h <;> subst h <;> rfl

/-- C2 witness: the theorem applied to an absent response text. -/
theorem translateDocument_empty_response_witness :
    translateDocument (.success none) (fun _ => Except.error ()) =
      .ok { text := "Could not extract text."
            summary := ""
            actionItems := []
            address := none
            officialInfo := none } :=
  translateDocument_empty_response none (Or.inl rfl) _

/-- C3 counterexample: a payload classified as official whose
`officialDetails` object is absent produces a result whose official
sub-fields (`goNumber`, `department`, `date`, `subject`) are left
undefined (`JStr.undef`), which is neither null nor an empty string, so
not every optional field of the result is given a safe placeholder. -/
theorem translateDocument_subfield_left_undefined :
    translateDocument (.success (some "ok")) (fun _ => Except.ok c3Payload) =
      .ok { text := "Full text"
            summary := "Simple summary"
            actionItems := ["Submit by Friday"]
            address := some "Main Road Office"
            officialInfo := some { isOfficial := true
                                   goNumber := JStr.undef
                                   department := JStr.undef
                                   date := JStr.undef
                                   subject := JStr.undef } } ∧
    JStr.undef ≠ JStr.null ∧ JStr.undef ≠ JStr.str "" := by
  decide

/-- C3 (amended): every top-level optional field of a result returned by
`translateDocument` is given a safe placeholder (the text is never empty
and the address is never the empty string; an absent action-item list
becomes the empty list and a non-true official flag a null official
info), but the official-document sub-fields are copied from the
payload's `officialDetails` by optional chaining and are left undefined
when that object is absent. -/
theorem translateDocument_topLevel_defaults :
    (∀ (outcome : RemoteOutcome (Option String))
        (parseJson : String → Except Unit TranslationPayload)
        (res : TranslationResult),
        translateDocument outcome parseJson = Except.ok res →
        res.text ≠ "" ∧ res.address ≠ some "") ∧
    (∀ payload : TranslationPayload, payload.actionItems = none →
        (normalizePayload payload).actionItems = []) ∧
    (∀ payload : TranslationPayload, ¬payload.isOfficialDocument = some true →
        (normalizePayload payload).officialInfo = none) ∧
    (∀ (payload : TranslationPayload) (info : OfficialDocInfo),
        payload.officialDetails = none →
        (normalizePayload payload).officialInfo = some info →
        info.goNumber = JStr.undef ∧ info.department = JStr.undef ∧
        info.date = JStr.undef ∧ info.subject = JStr.undef) := by
  refine ⟨?_, ?_, ?_, ?_⟩
  · intro outcome parseJson res h
    have hres : res = emptyTranslationResult ∨
        ∃ payload, res = normalizePayload payload := by
      cases outcome with
      | failure => simp [translateDocument] at h
      | success text =>
          by_cases ht : truthyStr text = true
          · simp only [translateDocument, ht, if_true] at h
            cases hp : parseJson (text.getD "") with
            | ok payload =>
                rw [hp] at h
                exact Or.inr ⟨payload, by simpa using h.symm⟩
            | error e => rw [hp] at h; simp at h
          · simp only [translateDocument, ht, if_false] at h
            exact Or.inl (by simpa using h.symm)
    rcases hres with rfl | ⟨payload, rfl⟩
    · refine ⟨by simp [emptyTranslationResult], by simp [emptyTranslationResult]⟩
    · exact ⟨jsOr_ne_empty _ _ (by simp), orNull_ne_some_empty _⟩
  · intro payload h
    simp [normalizePayload, h]
  · intro payload h
    simp [normalizePayload, h]
  · intro payload info hod hinfo
    by_cases hflag : payload.isOfficialDocument = some true
    · simp only [normalizePayload, hflag, if_true, Option.some.injEq] at hinfo
      rw [← hinfo]
      simp [optChain, hod]
    · simp [normalizePayload, hflag] at hinfo

/-- C3 (amended) witness: the first clause applied to an absent response
text, and the last clause applied to the official payload with absent
details. -/
theorem translateDocument_topLevel_defaults_witness :
    (emptyTranslationResult.text ≠ "" ∧
     emptyTranslationResult.address ≠ some "") ∧
    ((normalizePayload c3Payload).officialInfo.getD
        { isOfficial := false, goNumber := .null, department := .null,
          date := .null, subject := .null }).goNumber = JStr.undef := by
  constructor
  · exact translateDocument_topLevel_defaults.1 (.success none)
      (fun _ => Except.error ()) emptyTranslationResult rfl
  · exact (translateDocument_topLevel_defaults.2.2.2 c3Payload
      { isOfficial := true, goNumber := .undef, department := .undef,
        date := .undef, subject := .undef } rfl (by decide)).1

/-- C5: `resolveLocation` reports latitude and longitude only when both
the case-insensitive "LAT:" pattern and the "LNG:" pattern match the
response text; if either fails to match, both coordinates are left
undefined. -/
theorem resolveLocation_requires_both_matches
    (response : GeoResponse)
    (h : coordMatch "LAT:" (response.text.getD "") = none ∨
         coordMatch "LNG:" (response.text.getD "") = none) :
    (resolveLocation (.success response)).latitude = none ∧
    (resolveLocation (.success response)).longitude = none := by
  have hcond : ¬((coordMatch "LAT:" (response.text.getD "")).isSome = true ∧
                 (coordMatch "LNG:" (response.text.getD "")).isSome = true) := by
    rcases h with h | h <;> simp [h]
  constructor <;> simp [resolveLocation, hcond]

/-- C5 witness: the theorem applied to the text "LAT: 12.34", which
contains no "LNG:" marker. -/
theorem resolveLocation_requires_both_matches_witness :
    (resolveLocation (.success { text := some "LAT: 12.34", groundingChunks := none })).latitude = none ∧
    (resolveLocation (.success { text := some "LAT: 12.34", groundingChunks := none })).longitude = none :=
  resolveLocation_requires_both_matches _ (Or.inr (by decide))

/-- C6: for the geocoding response text "LAT: 12.9716, LNG: 77.5946",
`resolveLocation` returns latitude exactly 12.9716 and longitude exactly
77.5946. -/
theorem resolveLocation_concrete_coords :
    resolveLocation (.success { text := some "LAT: 12.9716, LNG: 77.5946", groundingChunks := none }) =
      { latitude := some (12.9716 : ℚ)
        longitude := some (77.5946 : ℚ)
        mapUri := none } := by
  have h : resolveLocation (.success { text := some "LAT: 12.9716, LNG: 77.5946", groundingChunks := none }) =
      { latitude := some (mkRat 129716 10000)
        longitude := some (mkRat 775946 10000)
        mapUri := none } := by decide
  rw [h]
  norm_num [Rat.mkRat_eq_div, GeoResult.mk.injEq]

/-- C7: a remote-call failure inside `translateDocument` propagates as
the generic domain error "Failed to translate document.", while a
remote-call failure inside `resolveLocation` is swallowed and yields the
empty result with no coordinates and no map uri. -/
theorem remote_failure_asymmetry :
    (∀ parseJson : String → Except Unit TranslationPayload,
        translateDocument .failure parseJson =
          Except.error "Failed to translate document.") ∧
    resolveLocation .failure =
      { latitude := none, longitude := none, mapUri := none } :=
  ⟨fun _ => rfl, rfl⟩

/-- C8: `generateSpeech` raises the generic domain error
"Failed to generate speech." if and only if the remote call fails or its
response contains no (truthy) audio data; otherwise it returns the
base64 audio payload extracted from the response. -/
theorem generateSpeech_error_iff (outcome : RemoteOutcome SpeechResponse) :
    (generateSpeech outcome = Except.error "Failed to generate speech." ↔
      outcome = .failure ∨
      ∃ r, outcome = .success r ∧ hasAudioData r = false) ∧
    (∀ r : SpeechResponse, outcome = .success r → hasAudioData r = true →
      generateSpeech outcome = Except.ok ((extractAudioData r).getD "")) := by
  cases outcome with
  | failure =>
      refine ⟨by simp [generateSpeech], ?_⟩
      intro r h
      simp at h
  | success r =>
      cases hx : extractAudioData r with
      | none =>
          have hge : generateSpeech (.success r) =
              Except.error "Failed to generate speech." := by
            simp [generateSpeech, hx]
          have hhas : hasAudioData r = false := by simp [hasAudioData, hx]
          refine ⟨by simp [hge, hhas], ?_⟩
          intro r' hr' hh
          obtain rfl : r = r' := by simpa using hr'
          rw [hhas] at hh
          cases hh
      | some d =>
          by_cases hd : d = ""
          · subst hd
            have hge : generateSpeech (.success r) =
                Except.error "Failed to generate speech." := by
              simp [generateSpeech, hx]
            have hhas : hasAudioData r = false := by simp [hasAudioData, hx]
            refine ⟨by simp [hge, hhas], ?_⟩
            intro r' hr' hh
            obtain rfl : r = r' := by simpa using hr'
            rw [hhas] at hh
            cases hh
          · have hge : generateSpeech (.success r) = Except.ok d := by
              simp [generateSpeech, hx, hd]
            have hhas : hasAudioData r = true := by simp [hasAudioData, hx, hd]
            refine ⟨by simp [hge, hhas], ?_⟩
            intro r' hr' hh
            obtain rfl : r = r' := by simpa using hr'
            rw [hge, hx]
            rfl

/-- C8 witness: the theorem applied to a response carrying inline audio
data, returning that payload. -/
theorem generateSpeech_error_iff_witness :
    generateSpeech (.success speechAudioResponse) =
      Except.ok ((extractAudioData speechAudioResponse).getD "") :=
  (generateSpeech_error_iff (.success speechAudioResponse)).2
    speechAudioResponse rfl (by decide)

/-- C9: `resolveLocation` sets the map uri to the web uri of the first
grounding reference exposing one (a truthy `web?.uri`), skipping
references without one; when no reference exposes one or the list is
absent, the map uri is left unset.  Stated via `List.find?` over the
reference list. -/
theorem resolveLocation_mapUri_first (response : GeoResponse) :
    (resolveLocation (.success response)).mapUri =
      ((response.groundingChunks.getD []).find? truthyUri).bind chunkUri := by
  cases hg : response.groundingChunks with
  | none => simp [resolveLocation, hg]
  | some chunks => simp [resolveLocation, hg, firstMapUri_eq_find]

end DocuVoice
